import Mathlib

/-!
Verification of `chess.com_analyzer/analyzer.py` (class `ChessAnalyzer`).

The Python source is shallowly embedded: each method's observable behaviour
is a Lean function over explicit inputs (lists model Python lists, association
lists model dicts, `Option`/`Except` model raised exceptions, and the external
HTTP/websocket world is passed in as explicit data).  Helper definitions model
the Python primitives the source uses (`str.split`, the `in` operator on
strings, list indexing with negative indices, `re.search("[0-9].*", s)`,
`str(float)[:4]`).
-/

namespace ChessAnalyzer

/-! ## Python primitive semantics -/

/-- Character for a decimal digit `d < 10`. -/
def digitChar (d : Nat) : Char := Char.ofNat (48 + d)

/-- Digits printed after the decimal point by Python `str` for a number with
at most three decimals, given its fractional part in thousandths (`r < 1000`):
trailing zeros are dropped but at least one digit is always printed. -/
def fracDigits3 (r : Nat) : List Nat :=
  if r % 10 ≠ 0 then [r / 100, r / 10 % 10, r % 10]
  else if r / 10 % 10 ≠ 0 then [r / 100, r / 10 % 10]
  else [r / 100]

/-- Python `str` of a non-negative number carried in thousandths
(e.g. `97456 ↦ "97.456"`, `97450 ↦ "97.45"`, `97000 ↦ "97.0"`). -/
def pyFloatStr (m : Nat) : String :=
  toString (m / 1000) ++ "." ++ String.mk ((fracDigits3 (m % 1000)).map digitChar)

/-- Python `s.split(sep)` on character lists: splits at every occurrence of
`sep`; the empty list yields one empty group, as `"".split(",") == [""]`. -/
def splitChar (sep : Char) : List Char → List (List Char)
  | [] => [[]]
  | c :: cs =>
    match splitChar sep cs with
    | [] => [[]]
    | g :: gs => if c = sep then [] :: g :: gs else (c :: g) :: gs

/-- Python `s.split(sep)` for a one-character separator. -/
def pySplit (s : String) (sep : Char) : List String :=
  (splitChar sep s.toList).map String.mk

/-- Python `needle in haystack` for strings: substring containment. -/
def strContains (haystack needle : String) : Bool :=
  haystack.toList.tails.any (fun t => needle.toList.isPrefixOf t)

/-- Python list indexing `l[i]` with an `int` index: non-negative indices count
from the front, negative indices count from the back, and anything outside
`[-len(l), len(l))` raises `IndexError` (modelled by `none`). -/
def pyIndex (l : List α) (i : Int) : Option α :=
  if 0 ≤ i then l.get? i.toNat
  else if 0 ≤ (l.length : Int) + i then l.get? ((l.length : Int) + i).toNat
  else none

/-- Python slicing `s[:n]` on a string: the first `n` characters (all of `s`
when it is shorter). -/
def pyTake (s : String) (n : Nat) : String := String.mk (s.toList.take n)

/-- Python `re.search("[0-9].*", s)` followed by `.group(0)`: the match starts
at the first decimal digit of `s` and extends greedily to the end of the line
(`.` does not match a newline); `none` models `re.search` returning `None`,
on which `.group(0)` raises `AttributeError`. -/
def reSearchNum (s : String) : Option String :=
  match s.toList.dropWhile (fun c => !c.isDigit) with
  | [] => none
  | l => some (String.mk (l.takeWhile (fun c => c ≠ '\n')))

/-! ## Data model

Shapes of the JSON data the source reads, restricted to the fields it
accesses. -/

/-- The class constant `TALLIES_LIST` (analyzer.py line 16). -/
def TALLIES_LIST : List String :=
  ["brilliant", "greatFind", "best", "excellent", "good", "book",
   "inaccuracy", "mistake", "miss", "blunder"]

/-- An inbound websocket frame, as seen by the receive loop: `action` is the
frame's `json.loads(game)["action"]` discriminator and `raw` the frame text
the loop would return. -/
structure Frame where
  action : String
  raw : String
deriving Repr, DecidableEq

/-- One side of a game record from the game-history API: the source reads
only `["username"]`. -/
structure PlayerSide where
  username : String
deriving Repr, DecidableEq

/-- One entry of `get_player_games_by_month(...).json["games"]`, restricted
to the fields the source reads: `white`/`black` usernames, `pgn`, `url`. -/
structure PyGame where
  white : PlayerSide
  black : PlayerSide
  pgn : String
  url : String
deriving Repr, DecidableEq

/-- The two colors the source iterates over (`for color in ["white","black"]`). -/
inductive Color
  | white
  | black
deriving Repr, DecidableEq

/-- The `usernames` dict built in `analyze_game` (keys `"white"`, `"black"`). -/
structure Usernames where
  white : String
  black : String
deriving Repr, DecidableEq

/-- Per-color block of `data["data"]["CAPS"]`: accuracy values keyed
`all`, `gp0`, `gp1`, `gp2`.  Each accuracy value is carried in thousandths
(`97456` stands for the JSON number `97.456`), so that Python `str` on it is
`pyFloatStr`; the source feeds such values to `str(...)[:4]`. -/
structure ColorCaps where
  all : Nat
  gp0 : Nat
  gp1 : Nat
  gp2 : Nat
deriving Repr, DecidableEq

/-- The parsed analysis payload `data["data"]`, restricted to the fields
`__get_tallies` reads.  `tallies` is the per-color move-quality dict,
modelled as an association list since labels may be absent (a missing key
raises `KeyError`). -/
structure AnalysisData where
  bookName : String
  effectiveElo : Color → Int
  caps : Color → ColorCaps
  tallies : Color → List (String × Int)

/-- Exceptions the embedded fragments can raise. -/
inductive PyErr
  | lookupError
  | attributeError
  | keyError
deriving Repr, DecidableEq

/-! ## Embedded operations -/

/-- Receive loop of `__analyze_game_async` (analyzer.py lines 147-149) on a
stream of inbound frames: read frames one at a time, return the first whose
`action` is `"analyzeGame"`, skipping all others; `none` models the loop
never returning on a finite stream with no such frame. -/
def recvLoop : List Frame → Option Frame
  | [] => none
  | m :: ms => if m.action = "analyzeGame" then some m else recvLoop ms

/-- Post-registration behaviour of `__generate_account` (analyzer.py lines
44-46): `user` is the generated username submitted in the registration
request, `echoedUsername` the registration response's
`["user"]["username"]`, and `tokenOf` the token-exchange service
(`__fetch_token` applied to the response's `PHPSESSID` cookie,
`sessionCookie` here).  If `user not in echoedUsername`, the method returns
the sentinel string `"ERROR GENERATING ACCOUNT."` instead of raising. -/
def generate_account (user : String) (echoedUsername : String)
    (sessionCookie : String) (tokenOf : String → String) : String :=
  if strContains echoedUsername user = false then "ERROR GENERATING ACCOUNT."
  else tokenOf sessionCookie

/-- The method `get_game_number` (analyzer.py lines 75-80): builds the
`user_games` dict mapping each enumeration index to the two usernames;
modelled as the association list produced by the insertion order. -/
def get_game_number (player_games : List PyGame) : List (Nat × Usernames) :=
  player_games.enum.map fun p =>
    (p.1, { white := p.2.white.username, black := p.2.black.username })

/-- Game-resolution part of `analyze_game` (analyzer.py lines 96-103):
index into the month's game list (Python indexing, `IndexError` being a
`LookupError`), extract the game id via `re.search("[0-9].*", url)` (a
failed search makes `.group(0)` raise `AttributeError`), and collect the
two usernames.  Returns `(pgn, gameID, usernames)`. -/
def analyze_game_resolve (player_games : List PyGame) (game_number : Int) :
    Except PyErr (String × String × Usernames) :=
  match pyIndex player_games game_number with
  | none => Except.error PyErr.lookupError
  | some g =>
    match reSearchNum g.url with
    | none => Except.error PyErr.attributeError
    | some gameID =>
      Except.ok (g.pgn, gameID,
        { white := g.white.username, black := g.black.username })

/-- Per-color summary block built by `__get_tallies`. -/
structure ColorSummary where
  username : String
  effective_elo : Int
  accuracy : String
  open_acc : String
  midd_acc : String
  end_acc : String
  move_rating : List (String × Int)
deriving Repr, DecidableEq

/-- The summary dict returned by `__get_tallies`. -/
structure Summary where
  opening : String
  engine : String
  white : ColorSummary
  black : ColorSummary
deriving Repr, DecidableEq

/-- Projection of a `Summary` onto one color's block. -/
def Summary.side (s : Summary) : Color → ColorSummary
  | Color.white => s.white
  | Color.black => s.black

/-- The dict comprehension on analyzer.py line 185 iterating over `ks`:
`{move: data["data"]["tallies"][color][move] for move in ks}`; a label
absent from the payload dict `t` raises `KeyError`. -/
def buildMoveRating (t : List (String × Int)) : List String → Except PyErr (List (String × Int))
  | [] => Except.ok []
  | k :: ks =>
    match t.lookup k with
    | none => Except.error PyErr.keyError
    | some v =>
      match buildMoveRating t ks with
      | Except.error e => Except.error e
      | Except.ok rs => Except.ok ((k, v) :: rs)

/-- Per-color body of the loop in `__get_tallies` (analyzer.py lines
170-186). -/
def colorSummary (data : AnalysisData) (usernames : Usernames) (c : Color) :
    Except PyErr ColorSummary :=
  match buildMoveRating (data.tallies c) TALLIES_LIST with
  | Except.error e => Except.error e
  | Except.ok mr =>
    Except.ok
    { username := match c with | Color.white => usernames.white | Color.black => usernames.black
      effective_elo := data.effectiveElo c
      accuracy := pyTake (pyFloatStr (data.caps c).all) 4
      open_acc := pyTake (pyFloatStr (data.caps c).gp0) 4
      midd_acc := pyTake (pyFloatStr (data.caps c).gp1) 4
      end_acc := pyTake (pyFloatStr (data.caps c).gp2) 4
      move_rating := mr }

/-- The method `__get_tallies` (analyzer.py lines 151-187): extract the
opening name (`str(data["data"]["book"]["name"]).split(",")[0]`), the fixed
engine string, and the two per-color summaries. -/
def get_tallies (data : AnalysisData) (usernames : Usernames) :
    Except PyErr Summary :=
  match colorSummary data usernames Color.white with
  | Except.error e => Except.error e
  | Except.ok w =>
    match colorSummary data usernames Color.black with
    | Except.error e => Except.error e
    | Except.ok b =>
      Except.ok
        { opening := (pySplit data.bookName ',').headD ""
          engine := "StockFish 16 NNUE (Maximum)"
          white := w
          black := b }

/-! ## Credential freshness (`__analyze_game_async`, line 119)

`__analyze_game_async` binds `token = self.__generate_account()` to a local
variable on every call; the class stores no token anywhere.  The external
provisioning world is modelled as a counter `w` of accounts created so far
together with the token `svc w` the service hands out for the `w`-th created
account; each call consumes one fresh account. -/

/-- The analysis request sent on the websocket (analyzer.py lines 122-146),
restricted to the per-call fields. -/
structure AnalysisRequest where
  action : String
  pgn : String
  gameId : String
  token : String
deriving Repr, DecidableEq

/-- One call of `__analyze_game_async` up to the `websocket.send`: provisions
a fresh token via `__generate_account` (advancing the external account
counter) and builds the request; returns the request and the new world
counter. -/
def analyze_game_async (svc : Nat → String) (pgn gameID : String) (w : Nat) :
    AnalysisRequest × Nat :=
  let token := svc w
  ({ action := "gameAnalysis", pgn := pgn, gameId := gameID, token := token }, w + 1)

/-! ## Default-argument capture (`get_game_number` line 62, `analyze_game` line 82)

Both methods declare `year=str(datetime.datetime.now().year)` and
`month=str(datetime.datetime.now().month)`.  Python evaluates default
argument expressions once, when the `def` statement executes — here while
the class body runs at import time — so the defaults are the year/month
at import time, not at call time. -/

/-- A clock reading, as far as the source consumes it. -/
structure DateTime where
  year : Nat
  month : Nat
deriving Repr, DecidableEq

/-- The `(year, month)` strings a call to `get_game_number` or
`analyze_game` passes to `get_player_games_by_month`: an omitted argument
(`none`) falls back to the default captured from `importTime`; `callTime`
is the clock at call time and is never consulted. -/
def resolvedYearMonth (importTime : DateTime) (_callTime : DateTime)
    (year month : Option String) : String × String :=
  (year.getD (toString importTime.year), month.getD (toString importTime.month))

/-- Numerical rounding of a thousandths-carried value to one decimal place
(half-up), for contrast with the source's string truncation. -/
def round1dp (m : Nat) : Nat := (m + 50) / 100 * 100

/-! ## Concrete fixtures -/

/-- A concrete game record with a canonical live-game URL. -/
def cgame : PyGame :=
  { white := { username := "alice" }, black := { username := "bob" },
    pgn := "1. e4 e5", url := "https://www.chess.com/game/live/12345678" }

/-- A second concrete game record. -/
def cgame2 : PyGame :=
  { white := { username := "carol" }, black := { username := "dave" },
    pgn := "1. d4 d5", url := "https://www.chess.com/game/live/87654321" }

/-- A payload tallies dict carrying every label of `TALLIES_LIST` with
count one. -/
def fullTallies : List (String × Int) := TALLIES_LIST.map (fun s => (s, 1))

/-- A concrete analysis payload with the Italian Game opening and CAPS
value 97.456 in the `all` slot. -/
def demoData : AnalysisData :=
  { bookName := "Italian Game, Giuoco Piano"
    effectiveElo := fun _ => 1500
    caps := fun _ => { all := 97456, gp0 := 90000, gp1 := 80000, gp2 := 70123 }
    tallies := fun _ => fullTallies }

/-- The same payload with the `"book"` label removed from the tallies
dicts. -/
def demoDataMissing : AnalysisData :=
  { demoData with tallies := fun _ => fullTallies.filter (fun p => p.1 ≠ "book") }

/-- The usernames dict for the fixtures. -/
def demoUsers : Usernames := { white := "alice", black := "bob" }

/-- The per-color block `__get_tallies` produces on `demoData`. -/
def demoColorSummary (u : String) : ColorSummary :=
  { username := u, effective_elo := 1500, accuracy := "97.4",
    open_acc := "90.0", midd_acc := "80.0", end_acc := "70.1",
    move_rating := fullTallies }

/-- The summary `__get_tallies` produces on `demoData`. -/
def demoSummary : Summary :=
  { opening := "Italian Game", engine := "StockFish 16 NNUE (Maximum)",
    white := demoColorSummary "alice", black := demoColorSummary "bob" }

/-! ## General lemmas -/

/-- Dropping-while over an appended list whose first part wholly satisfies
the predicate. -/
theorem dropWhile_append_all {α : Type} (p : α → Bool) {l1 : List α} (l2 : List α)
    (h : ∀ c ∈ l1, p c) : (l1 ++ l2).dropWhile p = l2.dropWhile p := by
  induction l1 with
  | nil => rfl
  | cons a as ih =>
    have ha : p a := h a (by simp)
    simpa [List.dropWhile_cons, ha] using ih (fun c hc => h c (by simp [hc]))

/-- Taking-while over an appended list whose first part wholly satisfies the
predicate. -/
theorem takeWhile_append_all {α : Type} (p : α → Bool) {l1 : List α} (l2 : List α)
    (h : ∀ c ∈ l1, p c) : (l1 ++ l2).takeWhile p = l1 ++ l2.takeWhile p := by
  induction l1 with
  | nil => rfl
  | cons a as ih =>
    have ha : p a := h a (by simp)
    simpa [List.takeWhile_cons, ha] using ih (fun c hc => h c (by simp [hc]))

/-- A list wholly satisfying the predicate is its own takeWhile. -/
theorem takeWhile_all {α : Type} (p : α → Bool) {l : List α}
    (h : ∀ c ∈ l, p c) : l.takeWhile p = l := by
  simpa using takeWhile_append_all p [] h

/-- The first group produced by `splitChar` is the longest separator-free
prefix. -/
theorem splitChar_head (sep : Char) (l : List Char) :
    ∃ gs, splitChar sep l = l.takeWhile (fun c => c ≠ sep) :: gs := by
  induction l with
  | nil => exact ⟨[], rfl⟩
  | cons c cs ih =>
    obtain ⟨gs, hgs⟩ := ih
    by_cases hc : c = sep
    · subst hc
      refine ⟨List.takeWhile (fun x => decide (x ≠ c)) cs :: gs, ?_⟩
      simp only [splitChar, hgs, List.takeWhile_cons]
      simp
    · refine ⟨gs, ?_⟩
      simp only [splitChar, hgs, List.takeWhile_cons]
      simp [hc]

/-! ## Claim C1 -/

/-- C1: the receive loop of `__analyze_game_async` reads inbound frames one
at a time, discards every frame whose action tag is not `"analyzeGame"`, and
returns the first frame tagged `"analyzeGame"`, however many non-matching
frames (zero, one, or many) precede it. -/
theorem C1_recv_loop_returns_first_completion (pre : List Frame) (m : Frame)
    (rest : List Frame) (hpre : ∀ x ∈ pre, x.action ≠ "analyzeGame")
    (hm : m.action = "analyzeGame") :
    recvLoop (pre ++ m :: rest) = some m := by
  induction pre with
  | nil => simp [recvLoop, hm]
  | cons a as ih =>
    have ha : a.action ≠ "analyzeGame" := hpre a (by simp)
    simpa [recvLoop, ha] using ih (fun x hx => hpre x (by simp [hx]))

/-- C1 witness: a stream of five progress frames followed by one completion
frame yields exactly the completion frame. -/
theorem C1_witness :
    recvLoop
      [⟨"progress", "f1"⟩, ⟨"progress", "f2"⟩, ⟨"progress", "f3"⟩,
       ⟨"progress", "f4"⟩, ⟨"progress", "f5"⟩, ⟨"analyzeGame", "done"⟩]
      = some ⟨"analyzeGame", "done"⟩ :=
  C1_recv_loop_returns_first_completion
    [⟨"progress", "f1"⟩, ⟨"progress", "f2"⟩, ⟨"progress", "f3"⟩,
     ⟨"progress", "f4"⟩, ⟨"progress", "f5"⟩] ⟨"analyzeGame", "done"⟩ []
    (by decide) rfl

/-! ## Claim C2 -/

/-- C2: contrary to the claim, on a registration response that does not echo
the submitted username, `__generate_account` does not fail with an error: it
returns the plain sentinel string `"ERROR GENERATING ACCOUNT."` in the
position of a token (analyzer.py line 44). -/
theorem C2_sentinel_returned_on_echo_mismatch :
    generate_account "Abc123DEFgh4567" "someoneElse" "sess0"
      (fun s => "tok-" ++ s) = "ERROR GENERATING ACCOUNT." := by decide

/-! ## Claim C9 -/

/-- C9: `__analyze_game_async` binds a freshly provisioned token to a
call-local variable (analyzer.py line 119); no token is read from or stored
in the analyzer object.  Running two calls in sequence, each request carries
the token of its own provisioning interaction (the world counter advances by
one per call), so whenever the provisioning service does not hand out the
same token twice the two requests carry different tokens. -/
theorem C9_fresh_credential_per_call (svc : Nat → String)
    (p1 g1 p2 g2 : String) (w0 : Nat) (hfresh : svc w0 ≠ svc (w0 + 1)) :
    (analyze_game_async svc p1 g1 w0).1.token = svc w0 ∧
    (analyze_game_async svc p2 g2 (analyze_game_async svc p1 g1 w0).2).1.token
      = svc (w0 + 1) ∧
    (analyze_game_async svc p1 g1 w0).1.token ≠
      (analyze_game_async svc p2 g2 (analyze_game_async svc p1 g1 w0).2).1.token :=
  ⟨rfl, rfl, hfresh⟩

/-- C9 witness: with a provisioning service issuing the decimal numeral of
the account counter, two sequential calls obtain tokens `"0"` and `"1"`. -/
theorem C9_witness :
    (analyze_game_async (fun n => toString n) "pA" "11" 0).1.token = "0" ∧
    (analyze_game_async (fun n => toString n) "pB" "22"
        (analyze_game_async (fun n => toString n) "pA" "11" 0).2).1.token = "1" ∧
    (analyze_game_async (fun n => toString n) "pA" "11" 0).1.token ≠
      (analyze_game_async (fun n => toString n) "pB" "22"
        (analyze_game_async (fun n => toString n) "pA" "11" 0).2).1.token :=
  C9_fresh_credential_per_call (fun n => toString n) "pA" "11" "pB" "22" 0 (by decide)

/-! ## Claim C10 -/

/-- C10: with omitted year/month arguments, `get_game_number` and
`analyze_game` query the year/month captured from the clock when the class
body was evaluated (import time), regardless of the clock at call time: two
calls at different times resolve to the same import-time values, and a call
made in January 2025 in a process imported in December 2024 still queries
December 2024. -/
theorem C10_defaults_captured_at_import (importTime t1 t2 : DateTime) :
    resolvedYearMonth importTime t1 none none
      = resolvedYearMonth importTime t2 none none ∧
    resolvedYearMonth importTime t1 none none
      = (toString importTime.year, toString importTime.month) ∧
    resolvedYearMonth ⟨2024, 12⟩ ⟨2025, 1⟩ none none = ("2024", "12") :=
  ⟨rfl, rfl, by decide⟩

/-! ## Claim C5 -/

/-- On a URL whose trailing path segment is nonempty and all digits, with no
digit anywhere before it, `re.search("[0-9].*", url).group(0)` returns
exactly that trailing segment. -/
theorem reSearchNum_trailing (pfx seg : String)
    (hpfx : ∀ c ∈ pfx.toList, ¬ c.isDigit)
    (hne : seg ≠ "") (hdig : ∀ c ∈ seg.toList, c.isDigit) :
    reSearchNum (pfx ++ "/" ++ seg) = some seg := by
  obtain ⟨d, ds, hseg⟩ : ∃ d ds, seg.toList = d :: ds := by
    cases hs : seg.toList with
    | nil => exact absurd (String.ext (hs.trans rfl)) hne
    | cons d ds => exact ⟨d, ds, rfl⟩
  have hdata : (pfx ++ "/" ++ seg).toList = (pfx.toList ++ ['/']) ++ seg.toList := by
    show (pfx ++ "/" ++ seg).data = (pfx.data ++ ['/']) ++ seg.data
    rw [String.data_append, String.data_append]
  have hall : ∀ c ∈ pfx.toList ++ ['/'], (!c.isDigit) = true := by
    intro c hc
    rcases List.mem_append.mp hc with h | h
    · simpa using hpfx c h
    · simp at h; subst h; decide
  have hd : d.isDigit := hdig d (hseg ▸ List.mem_cons_self d ds)
  have hdrop : ((pfx ++ "/" ++ seg).toList).dropWhile (fun c => !c.isDigit)
      = d :: ds := by
    rw [hdata, dropWhile_append_all _ _ hall, hseg, List.dropWhile_cons]
    simp [hd]
  have htake : (d :: ds).takeWhile (fun c => c ≠ '\n') = d :: ds := by
    refine takeWhile_all _ ?_
    intro c hc
    have hcd : c.isDigit := hdig c (hseg ▸ hc)
    simp only [decide_eq_true_eq]
    intro hcn
    rw [hcn] at hcd
    exact absurd hcd (by decide)
  unfold reSearchNum
  rw [hdrop]
  simp only [htake]
  rw [← hseg]
  cases seg
  rfl

/-- C5: for every game index that resolves, if the game's URL consists of a
digit-free prefix followed by `/` and a nonempty all-digit trailing segment
(the canonical live-game URL shape), `analyze_game` derives exactly that
trailing segment — hence an all-digit identifier — as the remote game id. -/
theorem C5_gameID_is_trailing_digits (player_games : List PyGame) (i : Int)
    (g : PyGame) (pfx seg : String)
    (hg : pyIndex player_games i = some g)
    (hurl : g.url = pfx ++ "/" ++ seg)
    (hpfx : ∀ c ∈ pfx.toList, ¬ c.isDigit)
    (hne : seg ≠ "") (hdig : ∀ c ∈ seg.toList, c.isDigit) :
    analyze_game_resolve player_games i
      = Except.ok (g.pgn, seg,
          { white := g.white.username, black := g.black.username }) := by
  have hsearch : reSearchNum g.url = some seg := by
    rw [hurl]; exact reSearchNum_trailing pfx seg hpfx hne hdig
  simp [analyze_game_resolve, hg, hsearch]

/-- C5 witness: for the concrete game list `[cgame]` at index 0, whose URL
is `https://www.chess.com/game/live/12345678`, the resolved game id is the
trailing segment `12345678`. -/
theorem C5_witness :
    analyze_game_resolve [cgame] 0
      = Except.ok ("1. e4 e5", "12345678",
          { white := "alice", black := "bob" }) :=
  C5_gameID_is_trailing_digits [cgame] 0 cgame
    "https://www.chess.com/game/live" "12345678"
    rfl rfl (by decide) (by decide) (by decide)

/-! ## Claim C6 -/

/-- C6 counterexample: with a one-game list, whose valid 0-based indices are
exactly `{0}`, the out-of-range index `-1` does not fail with a
`LookupError`: Python negative indexing silently resolves it to the last
game and analysis proceeds. -/
theorem C6_counterexample :
    analyze_game_resolve [cgame] (-1)
      = Except.ok ("1. e4 e5", "12345678",
          { white := "alice", black := "bob" }) ∧
    analyze_game_resolve [cgame] (-1) ≠ Except.error PyErr.lookupError := by
  constructor
  · rfl
  · intro h
    cases h.symm.trans (rfl :
      analyze_game_resolve [cgame] (-1)
        = Except.ok ("1. e4 e5", "12345678",
            { white := "alice", black := "bob" }))

/-- C6 amended: an index at or beyond the game count, or strictly below the
negated game count, fails with `LookupError` (`IndexError`); a negative
index `i` with `-N ≤ i < 0` is instead resolved, Python-style, to the game
at position `N + i`. -/
theorem C6_amended_out_of_python_range (player_games : List PyGame) (i : Int) :
    (((player_games.length : Int) ≤ i ∨ i < -(player_games.length : Int)) →
      analyze_game_resolve player_games i = Except.error PyErr.lookupError) ∧
    (-(player_games.length : Int) ≤ i → i < 0 →
      pyIndex player_games i
        = player_games.get? ((player_games.length : Int) + i).toNat) := by
  constructor
  · intro h
    have hnone : pyIndex player_games i = none := by
      unfold pyIndex
      rcases h with h | h
      · have h0 : 0 ≤ i := le_trans (by positivity) h
        rw [if_pos h0, List.get?_eq_none.mpr]
        omega
      · have h0 : ¬ 0 ≤ i := by omega
        have h1 : ¬ 0 ≤ (player_games.length : Int) + i := by omega
        rw [if_neg h0, if_neg h1]
    simp [analyze_game_resolve, hnone]
  · intro hlo hhi
    unfold pyIndex
    rw [if_neg (by omega), if_pos (by omega)]

/-- C6 amended witness: the empty list rejects index 0 with `LookupError`,
and a one-game list resolves index `-1` to position 0. -/
theorem C6_amended_witness :
    analyze_game_resolve ([] : List PyGame) 0 = Except.error PyErr.lookupError ∧
    pyIndex [cgame] (-1)
      = [cgame].get? (((([cgame] : List PyGame).length : Int) + (-1)).toNat) :=
  ⟨(C6_amended_out_of_python_range [] 0).1 (Or.inl (by decide)),
   (C6_amended_out_of_python_range [cgame] (-1)).2 (by decide) (by decide)⟩

/-! ## Claim C7 -/

/-- C7: `get_game_number` returns a mapping whose keys are exactly
0..N-1 where N is the upstream game count, in upstream order, and the
record at key i carries the i-th upstream game's white and black
usernames. -/
theorem C7_indices_exactly_range (player_games : List PyGame) :
    (get_game_number player_games).map Prod.fst = List.range player_games.length ∧
    ∀ i (h : i < player_games.length),
      (get_game_number player_games).get? i
        = some (i, { white := (player_games.get ⟨i, h⟩).white.username,
                     black := (player_games.get ⟨i, h⟩).black.username }) := by
  constructor
  · unfold get_game_number
    rw [List.map_map]
    exact List.enum_map_fst player_games
  · intro i h
    unfold get_game_number
    rw [List.get?_eq_getElem?, List.getElem?_map, List.getElem?_enum,
      List.getElem?_eq_getElem h]
    rfl

/-- C7 witness: on a concrete two-game list, the keys are `[0, 1]` and key 1
carries the second game's usernames. -/
theorem C7_witness :
    (get_game_number [cgame, cgame2]).get? 1
      = some (1, { white := "carol", black := "dave" }) :=
  (C7_indices_exactly_range [cgame, cgame2]).2 1 (by decide)

/-! ## Lemmas on the result aggregator -/

/-- Rebuilding a string from its character list is the identity. -/
theorem mk_toList (s : String) : String.mk s.toList = s := by
  cases s
  rfl

/-- Keys of a successful move-rating build are exactly the requested label
list, in order. -/
theorem buildMoveRating_ok_keys (t : List (String × Int)) (ks : List String) :
    ∀ mr, buildMoveRating t ks = Except.ok mr → mr.map Prod.fst = ks := by
  induction ks with
  | nil =>
    intro mr h
    simp [buildMoveRating] at h
    simp [← h]
  | cons k ks ih =>
    intro mr h
    unfold buildMoveRating at h
    cases hl : t.lookup k with
    | none => rw [hl] at h; cases h
    | some v =>
      rw [hl] at h
      cases hr : buildMoveRating t ks with
      | error e => rw [hr] at h; cases h
      | ok rs =>
        rw [hr] at h
        injection h with h2
        subst h2
        simp [ih rs hr]

/-- A requested label missing from the payload dict fails the whole build
with `KeyError`. -/
theorem buildMoveRating_missing (t : List (String × Int)) (l : String)
    (hnone : t.lookup l = none) :
    ∀ ks, l ∈ ks → buildMoveRating t ks = Except.error PyErr.keyError := by
  intro ks
  induction ks with
  | nil => intro hmem; cases hmem
  | cons k ks ih =>
    intro hmem
    rcases List.mem_cons.mp hmem with h | h
    · subst h
      simp [buildMoveRating, hnone]
    · cases hl : t.lookup k with
      | none => simp [buildMoveRating, hl]
      | some v => simp [buildMoveRating, hl, ih h]

/-- The only error a move-rating build raises is `KeyError`. -/
theorem buildMoveRating_error_val (t : List (String × Int)) (ks : List String) :
    ∀ e, buildMoveRating t ks = Except.error e → e = PyErr.keyError := by
  induction ks with
  | nil => intro e h; cases h
  | cons k ks ih =>
    intro e h
    unfold buildMoveRating at h
    cases hl : t.lookup k with
    | none =>
      rw [hl] at h
      injection h with h2
      exact h2.symm
    | some v =>
      rw [hl] at h
      cases hr : buildMoveRating t ks with
      | error e2 =>
        rw [hr] at h
        injection h with h2
        subst h2
        exact ih e2 hr
      | ok rs => rw [hr] at h; cases h

/-- Field content of a successful per-color summary. -/
theorem colorSummary_ok_fields (data : AnalysisData) (us : Usernames) (c : Color) :
    ∀ cs, colorSummary data us c = Except.ok cs →
      cs.accuracy = pyTake (pyFloatStr (data.caps c).all) 4 ∧
      cs.open_acc = pyTake (pyFloatStr (data.caps c).gp0) 4 ∧
      cs.midd_acc = pyTake (pyFloatStr (data.caps c).gp1) 4 ∧
      cs.end_acc = pyTake (pyFloatStr (data.caps c).gp2) 4 ∧
      cs.move_rating.map Prod.fst = TALLIES_LIST := by
  intro cs h
  unfold colorSummary at h
  cases hb : buildMoveRating (data.tallies c) TALLIES_LIST with
  | error e => rw [hb] at h; cases h
  | ok mr =>
    rw [hb] at h
    injection h with h2
    subst h2
    exact ⟨rfl, rfl, rfl, rfl, buildMoveRating_ok_keys _ _ mr hb⟩

/-- A per-color summary is either a success or a `KeyError`. -/
theorem colorSummary_cases (data : AnalysisData) (us : Usernames) (c : Color) :
    (∃ cs, colorSummary data us c = Except.ok cs) ∨
      colorSummary data us c = Except.error PyErr.keyError := by
  cases hb : buildMoveRating (data.tallies c) TALLIES_LIST with
  | error e =>
    right
    have he := buildMoveRating_error_val (data.tallies c) TALLIES_LIST e hb
    subst he
    simp [colorSummary, hb]
  | ok mr =>
    left
    exact ⟨_, by unfold colorSummary; rw [hb]⟩

/-- A `KeyError` on either color's tally build fails `__get_tallies` with
`KeyError`. -/
theorem get_tallies_keyError (data : AnalysisData) (us : Usernames) (c : Color)
    (h : buildMoveRating (data.tallies c) TALLIES_LIST
      = Except.error PyErr.keyError) :
    get_tallies data us = Except.error PyErr.keyError := by
  have hc : colorSummary data us c = Except.error PyErr.keyError := by
    simp [colorSummary, h]
  cases c with
  | white => simp [get_tallies, hc]
  | black =>
    rcases colorSummary_cases data us Color.white with ⟨w, hw⟩ | hw
    · simp [get_tallies, hw, hc]
    · simp [get_tallies, hw]

/-- Inversion of a successful `__get_tallies`. -/
theorem get_tallies_ok_inv (data : AnalysisData) (us : Usernames) :
    ∀ s, get_tallies data us = Except.ok s →
      colorSummary data us Color.white = Except.ok s.white ∧
      colorSummary data us Color.black = Except.ok s.black ∧
      s.opening = (pySplit data.bookName ',').headD "" := by
  intro s h
  unfold get_tallies at h
  cases hw : colorSummary data us Color.white with
  | error e => rw [hw] at h; cases h
  | ok w =>
    rw [hw] at h
    cases hb : colorSummary data us Color.black with
    | error e => rw [hb] at h; cases h
    | ok b =>
      rw [hb] at h
      injection h with h2
      subst h2
      exact ⟨rfl, rfl, rfl⟩

/-- The first group of a Python split is the longest separator-free
prefix. -/
theorem pySplit_headD (s : String) (sep : Char) :
    (pySplit s sep).headD ""
      = String.mk (s.toList.takeWhile (fun c => c ≠ sep)) := by
  obtain ⟨gs, hgs⟩ := splitChar_head sep s.toList
  unfold pySplit
  rw [hgs]
  rfl

/-! ## Claim C3 -/

/-- C3: on any payload on which `__get_tallies` succeeds, each color's
move-quality tally carries exactly the labels of the fixed closed
`TALLIES_LIST`, in order; and on any payload whose tallies dict for either
color is missing any of those labels, `__get_tallies` fails with `KeyError`
(the propagated malformed-response failure) rather than omitting or
defaulting the label. -/
theorem C3_tally_labels_total (data : AnalysisData) (us : Usernames) :
    (∀ s, get_tallies data us = Except.ok s →
        ∀ c, ((s.side c).move_rating).map Prod.fst = TALLIES_LIST) ∧
    (∀ c l, l ∈ TALLIES_LIST → (data.tallies c).lookup l = none →
        get_tallies data us = Except.error PyErr.keyError) := by
  constructor
  · intro s hs c
    obtain ⟨hw, hb, -⟩ := get_tallies_ok_inv data us s hs
    cases c with
    | white => exact (colorSummary_ok_fields data us Color.white s.white hw).2.2.2.2
    | black => exact (colorSummary_ok_fields data us Color.black s.black hb).2.2.2.2
  · intro c l hmem hnone
    exact get_tallies_keyError data us c
      (buildMoveRating_missing _ _ hnone _ hmem)

/-- C3 witness: on the complete fixture payload the white tally keys are
exactly `TALLIES_LIST`; removing the `"book"` label makes `__get_tallies`
fail with `KeyError`. -/
theorem C3_witness :
    ((demoSummary.side Color.white).move_rating).map Prod.fst = TALLIES_LIST ∧
    get_tallies demoDataMissing demoUsers = Except.error PyErr.keyError :=
  ⟨(C3_tally_labels_total demoData demoUsers).1 demoSummary rfl Color.white,
   (C3_tally_labels_total demoDataMissing demoUsers).2 Color.white "book"
     (by decide) (by decide)⟩

/-! ## Claim C8 -/

/-- C8: the opening reported by `__get_tallies` is the first comma-delimited
segment of the payload's book-opening name: in general the longest
comma-free prefix, and whenever the name is `seg ++ "," ++ rest` with `seg`
comma-free, the opening equals `seg`. -/
theorem C8_opening_first_comma_segment :
    (∀ data us s, get_tallies data us = Except.ok s →
        s.opening
          = String.mk (data.bookName.toList.takeWhile (fun c => c ≠ ','))) ∧
    (∀ seg rest : String, (∀ c ∈ seg.toList, c ≠ ',') →
      ∀ data us s, data.bookName = seg ++ "," ++ rest →
        get_tallies data us = Except.ok s → s.opening = seg) := by
  constructor
  · intro data us s hs
    obtain ⟨-, -, hop⟩ := get_tallies_ok_inv data us s hs
    rw [hop, pySplit_headD]
  · intro seg rest hseg data us s hbook hs
    obtain ⟨-, -, hop⟩ := get_tallies_ok_inv data us s hs
    have hdata : (seg ++ "," ++ rest).toList = seg.toList ++ (',' :: rest.toList) := by
      show (seg ++ "," ++ rest).data = seg.data ++ (',' :: rest.data)
      rw [String.data_append, String.data_append]
      simp
    rw [hop, pySplit_headD, hbook, hdata,
      takeWhile_append_all _ _ (by intro c hc; simpa using hseg c hc),
      List.takeWhile_cons]
    simp [mk_toList]

/-- C8 witness: the fixture book-opening name
`"Italian Game, Giuoco Piano"` yields opening `"Italian Game"`. -/
theorem C8_witness : demoSummary.opening = "Italian Game" :=
  (C8_opening_first_comma_segment).2 "Italian Game" " Giuoco Piano"
    (by decide) demoData demoUsers demoSummary (by decide) rfl

/-! ## Claim C4 -/

/-- Decimal numerals of two-digit numbers have two characters. -/
theorem toString_two_digits : ∀ q < 100, 10 ≤ q → (toString q).toList.length = 2 := by
  decide

/-- The first printed fractional digit is the hundreds digit of the
fractional part. -/
theorem fracDigits3_head (r : Nat) : ∃ tl, fracDigits3 r = r / 100 :: tl := by
  unfold fracDigits3
  split_ifs <;> exact ⟨_, rfl⟩

/-- Printed fractional digits of a whole multiple of 100 (a tenths-only
value). -/
theorem fracDigits3_hundreds : ∀ d < 10, fracDigits3 (d * 100) = [d] := by
  decide

/-- Character list of the printed decimal string. -/
theorem pyFloatStr_toList (m : Nat) :
    (pyFloatStr m).toList
      = (toString (m / 1000)).toList ++ '.' :: (fracDigits3 (m % 1000)).map digitChar := by
  show (pyFloatStr m).data
      = (toString (m / 1000)).data ++ '.' :: (fracDigits3 (m % 1000)).map digitChar
  unfold pyFloatStr
  rw [String.data_append, String.data_append]
  simp

/-- For values with a two-digit integer part, taking the first four
characters of the printed decimal string truncates (floors) the value to
one decimal place. -/
theorem pyTake_pyFloatStr_truncates (m : Nat) (h1 : 10000 ≤ m) (h2 : m < 100000) :
    pyTake (pyFloatStr m) 4 = pyFloatStr (m / 100 * 100) := by
  have hq1 : 10 ≤ m / 1000 := by omega
  have hq2 : m / 1000 < 100 := by omega
  have hlen : (toString (m / 1000)).toList.length = 2 :=
    toString_two_digits _ hq2 hq1
  obtain ⟨tl, htl⟩ := fracDigits3_head (m % 1000)
  have hdq : (m / 100 * 100) / 1000 = m / 1000 := by omega
  have hdr : (m / 100 * 100) % 1000 = (m % 1000) / 100 * 100 := by omega
  have hfr : fracDigits3 ((m % 1000) / 100 * 100) = [(m % 1000) / 100] :=
    fracDigits3_hundreds _ (by omega)
  have hm2 : (pyFloatStr (m / 100 * 100)).toList
      = (toString (m / 1000)).toList ++ ['.', digitChar ((m % 1000) / 100)] := by
    rw [pyFloatStr_toList, hdq, hdr, hfr]
    rfl
  unfold pyTake
  rw [pyFloatStr_toList m, ← mk_toList (pyFloatStr (m / 100 * 100)), hm2]
  congr 1
  rw [List.take_append_eq_append_take,
    List.take_of_length_le (by rw [hlen]; norm_num), hlen]
  congr 1
  rw [htl]
  rfl

/-- C4: each of the eight accuracy fields of the summary is the first four
characters (Python `[:4]`) of the decimal string of the corresponding CAPS
payload value; for a two-digit integer part this is truncation to one
decimal place, not numerical rounding: the value 97.456 yields `"97.4"`,
while numerical rounding to one decimal would yield `"97.5"`. -/
theorem C4_accuracy_truncated_not_rounded :
    (∀ data us s c, get_tallies data us = Except.ok s →
        (s.side c).accuracy = pyTake (pyFloatStr (data.caps c).all) 4 ∧
        (s.side c).open_acc = pyTake (pyFloatStr (data.caps c).gp0) 4 ∧
        (s.side c).midd_acc = pyTake (pyFloatStr (data.caps c).gp1) 4 ∧
        (s.side c).end_acc = pyTake (pyFloatStr (data.caps c).gp2) 4) ∧
    (∀ m, 10000 ≤ m → m < 100000 →
        pyTake (pyFloatStr m) 4 = pyFloatStr (m / 100 * 100)) ∧
    pyTake (pyFloatStr 97456) 4 = "97.4" ∧
    pyFloatStr (round1dp 97456) = "97.5" ∧
    pyTake (pyFloatStr 97456) 4 ≠ pyFloatStr (round1dp 97456) := by
  refine ⟨?_, pyTake_pyFloatStr_truncates, by decide, by decide, by decide⟩
  intro data us s c hs
  obtain ⟨hw, hb, -⟩ := get_tallies_ok_inv data us s hs
  cases c with
  | white =>
    obtain ⟨h1, h2, h3, h4, -⟩ := colorSummary_ok_fields data us Color.white s.white hw
    exact ⟨h1, h2, h3, h4⟩
  | black =>
    obtain ⟨h1, h2, h3, h4, -⟩ := colorSummary_ok_fields data us Color.black s.black hb
    exact ⟨h1, h2, h3, h4⟩

/-- C4 witness: on the fixture payload (white CAPS `all` = 97.456) the
reported accuracy is the four-character truncation, and truncation at
97.456 agrees with flooring to one decimal place. -/
theorem C4_witness :
    (demoSummary.side Color.white).accuracy = pyTake (pyFloatStr 97456) 4 ∧
    pyTake (pyFloatStr 97456) 4 = pyFloatStr (97456 / 100 * 100) :=
  ⟨(C4_accuracy_truncated_not_rounded.1 demoData demoUsers demoSummary
      Color.white rfl).1,
   C4_accuracy_truncated_not_rounded.2.1 97456 (by decide) (by decide)⟩

end ChessAnalyzer
